import Mathlib

/-!
Verification of the weekly roster-scoring prediction engine of
`fantasy_basketball_tools` against its natural-language specification.

The engine is shallowly embedded from the Python source:
* `predict/internal/roster_week_predictor.py` (`RosterWeekPredictor`),
* `predict/predict_week.py` (`PredictWeekHelper.predict_week`,
  `get_remaining_days_cumulative_scores`),
* `common/week.py` (`Week`).

Modelling conventions:
* Python `float` values are modelled as exact rationals (`ℚ`); the source
  performs only field arithmetic on them, idealized here as exact.
* A Python dictionary is modelled as an association list whose keys are
  unique; `dict.__getitem__` is `List.lookup`, `dict.get(k, 0)` is
  `(List.lookup k).getD 0`.
* A computation that can raise an exception (a `KeyError` from a direct
  subscript) is modelled in `Option`, `none` being the raised exception.
* The final `math.sqrt` that `predict` and the remaining-days table apply
  to an accumulated variance is kept symbolic: the embedded functions
  return the variance accumulator, and the theorems state the square root
  (`Real.sqrt`) explicitly, exactly where the source applies it.
-/

/-- A per-category stat dictionary (category name to averaged value),
the argument of `RosterWeekPredictor.get_fantasy_pts`. -/
abbrev StatBlock := List (String × ℚ)

/-- Embeds `RosterWeekPredictor.get_stat_in_category` (lines 172-183):
`stats.get(cat, 0)`. -/
def get_stat_in_category (stats : StatBlock) (cat : String) : ℚ :=
  (stats.lookup cat).getD 0

/-- Embeds `RosterWeekPredictor.get_fantasy_pts` (lines 148-170).
`PTS`, `3PTM` and `BLK` are read through `get_stat_in_category`
(absent defaults to `0`); the eight remaining categories are direct
subscripts, so an absent one raises a `KeyError`, i.e. yields `none`. -/
def get_fantasy_pts (stats : StatBlock) : Option ℚ := do
  let fga ← stats.lookup "FGA"
  let fgm ← stats.lookup "FGM"
  let fta ← stats.lookup "FTA"
  let ftm ← stats.lookup "FTM"
  let reb ← stats.lookup "REB"
  let ast ← stats.lookup "AST"
  let stl ← stats.lookup "STL"
  let tov ← stats.lookup "TO"
  pure (get_stat_in_category stats "PTS"
    + get_stat_in_category stats "3PTM"
    - fga + fgm * 2 - fta + ftm + reb + ast * 2 + stl * 4
    + get_stat_in_category stats "BLK" * 4 - tov * 2)

/-- One entry of `player.stats`: a per-period dictionary of which only the
`avg` sub-block is ever read (`'avg' in stats` / `stats['avg']`). -/
structure PeriodEntry where
  avg : Option StatBlock

/-- The fields of an `espn_api` `Player` that the engine reads.
`injuryStatus = none` models the attribute being absent, so that
`getattr(player, 'injuryStatus', 'ACTIVE')` is `injuryStatus.getD "ACTIVE"`. -/
structure Player where
  proTeam : String
  injuryStatus : Option String
  stats : List (String × PeriodEntry)

/-- The `stat_period_list` literal of
`RosterWeekPredictor.get_avg_variance_stats` (line 118). -/
def stat_period_list : List String :=
  ["2026_last_30", "2026_last_15", "2026_last_7", "2026_projected"]

/-- Embeds `RosterWeekPredictor.get_stat_from_stat_period` (lines 132-146).
The outer `Option` is the exception monad (a malformed `avg` block raises
through `get_fantasy_pts`); the inner `Option` is the Python return value
(`None` when the period, or its `avg` sub-block, is missing). -/
def get_stat_from_stat_period (player : Player) (stat_period : String) :
    Option (Option ℚ) :=
  match player.stats.lookup stat_period with
  | none => some none
  | some entry =>
    match entry.avg with
    | none => some none
    | some block => (get_fantasy_pts block).map some

/-- The list comprehension of line 119-122: `get_stat_from_stat_period`
applied to each label of a period list, propagating exceptions. -/
def collect_fpts (player : Player) : List String → Option (List (Option ℚ))
  | [] => some []
  | stat_period :: rest =>
    match get_stat_from_stat_period player stat_period,
        collect_fpts player rest with
    | some v, some vs => some (v :: vs)
    | _, _ => none

/-- `statistics.mean` on exact rationals. -/
def listMean (xs : List ℚ) : ℚ := xs.sum / xs.length

/-- `statistics.variance` on exact rationals: the unbiased sample variance
with Bessel's `n - 1` correction. -/
def sampleVariance (xs : List ℚ) : ℚ :=
  ((xs.map (fun x => (x - listMean xs) ^ 2)).sum) / ((xs.length : ℚ) - 1)

/-- Embeds `RosterWeekPredictor.get_avg_variance_stats` (lines 108-130):
collect the per-period fantasy-point values, drop the `None`s, return
`(0, 0)` on an empty list, else the mean paired with the sample variance
(`0` when only one sample is available). -/
def get_avg_variance_stats (player : Player) : Option (ℚ × ℚ) :=
  (collect_fpts player stat_period_list).map (fun fpts_for_stat_period =>
    let ignore_none_fpts_list := fpts_for_stat_period.filterMap id
    if ignore_none_fpts_list = [] then (0, 0)
    else (listMean ignore_none_fpts_list,
      if 1 < ignore_none_fpts_list.length then
        sampleVariance ignore_none_fpts_list
      else 0))

/-- The fields of an `espn_api` `Team` that the engine reads. -/
structure Team where
  team_name : String
  roster : List Player

/-- The league as the engine sees it: its teams, and the pro schedule
(`PRO_TEAM_MAP[id] for id in league._get_pro_schedule(sp).keys()`): the
pro teams with a game on a given scoring period. -/
structure League where
  teams : List Team
  proSchedule : ℤ → List String

/-- Embeds `Week._match_up_week_to_scoring_period_convert`
(common/week.py lines 53-67). -/
def match_up_week_to_scoring_period_convert (match_up_week : ℤ) : ℤ × ℤ :=
  if match_up_week = 1 then (0, 7)
  else (7 * (match_up_week - 1), 7 * match_up_week - 1)

/-- Embeds `Week` (common/week.py): the inclusive scoring-period range and
the per-day list of pro teams with a game. -/
structure Week where
  scoring_period : ℤ × ℤ
  team_game_list : List (List String)

/-- Embeds `Week._get_team_game_list` (lines 44-51): one schedule query per
scoring period in the inclusive range. -/
def get_team_game_list (league : League) (sp : ℤ × ℤ) : List (List String) :=
  (List.range (sp.2 - sp.1 + 1).toNat).map
    (fun (i : ℕ) => league.proSchedule (sp.1 + (i : ℤ)))

/-- Embeds `Week.__init__` (lines 20-29). -/
def Week.ofLeague (league : League) (match_up_week : ℤ) : Week :=
  { scoring_period := match_up_week_to_scoring_period_convert match_up_week
    team_game_list :=
      get_team_game_list league (match_up_week_to_scoring_period_convert match_up_week) }

/-- The loop bound `week.scoring_period[1] - week.scoring_period[0] + 1`
used by `predict`, `get_total_number_of_games` and
`get_remaining_days_cumulative_scores`. -/
def Week.numDays (week : Week) : ℕ :=
  (week.scoring_period.2 - week.scoring_period.1 + 1).toNat

/-- Embeds `RosterWeekPredictor.players_with_game` (lines 31-41).
The source subscript `team_game_list[day]` is total here via `getD`; every
engine call site keeps `day` below the list's length, where the two agree. -/
def players_with_game (roster : List Player) (week : Week) (day : ℕ) : List Player :=
  roster.filter (fun player => (week.team_game_list.getD day []).contains player.proTeam)

/-- `getattr(player, 'injuryStatus', 'ACTIVE')`: an absent attribute reads
as `"ACTIVE"`. -/
def effective_injury_status (player : Player) : String :=
  player.injuryStatus.getD "ACTIVE"

/-- The filtering comprehension of `predict` (lines 62-65), also duplicated
at lines 100-104 and in predict_week.py lines 318-321: players whose team
plays that day and whose injury status is in the allow-list. -/
def eligible_players (roster : List Player) (week : Week) (day : ℕ)
    (injuryStatusList : List String) : List Player :=
  (players_with_game roster week day).filter
    (fun player => injuryStatusList.contains (effective_injury_status player))

/-- Follows the spec's words, for comparison with the code: the spec reads
`.injury_status` as "treated as ACTIVE if absent/empty", so both an absent
attribute and an empty-string status count as `"ACTIVE"`. -/
def spec_effective_injury_status (player : Player) : String :=
  match player.injuryStatus with
  | none => "ACTIVE"
  | some "" => "ACTIVE"
  | some s => s

/-- The eligibility filter as the spec words it (absent or empty status
treated as `"ACTIVE"`), for comparison with `eligible_players`. -/
def spec_eligible_players (roster : List Player) (week : Week) (day : ℕ)
    (injuryStatusList : List String) : List Player :=
  (players_with_game roster week day).filter
    (fun player => injuryStatusList.contains (spec_effective_injury_status player))

/-- The ordering used by `player_stats.sort(reverse=True, key=lambda x: x[0])`:
`a` may come before `b` when `b`'s mean is at most `a`'s. A stable sort
under this relation is exactly Python's stable descending sort by mean. -/
def by_avg_desc (a b : ℚ × ℚ × Player) : Prop := b.1 ≤ a.1

instance : DecidableRel by_avg_desc :=
  fun a b => inferInstanceAs (Decidable (b.1 ≤ a.1))

instance : IsTotal (ℚ × ℚ × Player) by_avg_desc := ⟨fun a b => le_total b.1 a.1⟩

instance : IsTrans (ℚ × ℚ × Player) by_avg_desc :=
  ⟨fun _ _ _ hab hbc => le_trans hbc hab⟩

/-- The `(avg, var, player)` triples of `predict` lines 66-70, propagating
an exception from any player's stats. -/
def player_stat_triples : List Player → Option (List (ℚ × ℚ × Player))
  | [] => some []
  | player :: rest =>
    match get_avg_variance_stats player, player_stat_triples rest with
    | some mv, some triples => some ((mv.1, mv.2, player) :: triples)
    | _, _ => none

/-- The per-day step of `predict` (lines 62-77): filter the roster, build
the stat triples, sort descending by mean (stably), keep the first
`daily_active_size`, and sum the kept means and variances. -/
def simulate_day (roster : List Player) (week : Week) (day : ℕ)
    (injuryStatusList : List String) (daily_active_size : ℕ) : Option (ℚ × ℚ) :=
  (player_stat_triples (eligible_players roster week day injuryStatusList)).map
    (fun player_stats =>
      let top_stats := (List.insertionSort by_avg_desc player_stats).take daily_active_size
      ((top_stats.map (fun x => x.1)).sum, (top_stats.map (fun x => x.2.1)).sum))

/-- The iterated day indices
`range(starting_day, scoring_period[1] - scoring_period[0] + 1)`. -/
def week_days (week : Week) (starting_day : ℕ) : List ℕ :=
  (List.range week.numDays).drop starting_day

/-- The list of per-day `(day_points, day_variance)` outcomes over a list
of days, propagating exceptions. -/
def simulate_days (roster : List Player) (week : Week)
    (injuryStatusList : List String) (daily_active_size : ℕ) :
    List ℕ → Option (List (ℚ × ℚ))
  | [] => some []
  | day :: rest =>
    match simulate_day roster week day injuryStatusList daily_active_size,
        simulate_days roster week injuryStatusList daily_active_size rest with
    | some dv, some rs => some (dv :: rs)
    | _, _ => none

/-- The accumulation loop of `predict` (lines 58-80): running sums of
`total_points` and `variances` over the iterated days. -/
def predict_loop (roster : List Player) (week : Week)
    (injuryStatusList : List String) (daily_active_size : ℕ) :
    List ℕ → ℚ × ℚ → Option (ℚ × ℚ)
  | [], acc => some acc
  | day :: rest, acc =>
    match simulate_day roster week day injuryStatusList daily_active_size with
    | some dv => predict_loop roster week injuryStatusList daily_active_size rest
        (acc.1 + dv.1, acc.2 + dv.2)
    | none => none

/-- Embeds `RosterWeekPredictor.predict` (lines 43-81) up to its final
`math.sqrt`: the source returns `(total_points, math.sqrt(variances))`;
this returns `(total_points, variances)` and the theorems state the square
root explicitly. -/
def predict (roster : List Player) (week : Week) (daily_active_size : ℕ)
    (starting_day : ℕ) (injuryStatusList : List String) : Option (ℚ × ℚ) :=
  predict_loop roster week injuryStatusList daily_active_size
    (week_days week starting_day) (0, 0)

/-- The default of the `daily_active_size` parameter in the signature of
`RosterWeekPredictor.predict` (line 43). -/
def predict_default_daily_active_size : ℕ := 10

/-- Embeds `RosterWeekPredictor.get_total_number_of_games` (lines 83-106):
`min(len(eligible_players), daily_active_size)` summed over the iterated
days. Its `daily_active_size` default in the source is 9. -/
def get_total_number_of_games (roster : List Player) (week : Week)
    (daily_active_size : ℕ) (starting_day : ℕ)
    (injuryStatusList : List String) : ℕ :=
  ((week_days week starting_day).map
    (fun day => min (eligible_players roster week day injuryStatusList).length
      daily_active_size)).sum

/-- The per-team loop of `PredictWeekHelper.predict_week`
(predict_week.py lines 39-52): `predict` is called with
`daily_active_size=9` explicitly, `get_total_number_of_games` with its own
default 9. Builds the game-count and score maps in team order. -/
def predict_week_loop (week : Week) (day_of_week_override : ℕ)
    (injuryStatusList : List String) :
    List Team → Option (List (String × ℕ) × List (String × (ℚ × ℚ)))
  | [] => some ([], [])
  | team :: rest =>
    match predict team.roster week 9 day_of_week_override injuryStatusList,
        predict_week_loop week day_of_week_override injuryStatusList rest with
    | some predicted_points, some maps =>
        some ((team.team_name,
            get_total_number_of_games team.roster week 9 day_of_week_override
              injuryStatusList) :: maps.1,
          (team.team_name, predicted_points) :: maps.2)
    | _, _ => none

/-- Embeds `PredictWeekHelper.predict_week` (lines 18-54): resolve the week
then run the per-team loop. -/
def predict_week (league : League) (week_index : ℤ) (day_of_week_override : ℕ)
    (injuryStatusList : List String) :
    Option (List (String × ℕ) × List (String × (ℚ × ℚ))) :=
  predict_week_loop (Week.ofLeague league week_index) day_of_week_override
    injuryStatusList league.teams

/-- The per-day loop of `get_remaining_days_cumulative_scores`
(predict_week.py lines 316-339): the duplicated day computation with its
hard-coded `[:9]` cap, one `(day_points, day_variance)` pair per day. -/
def remaining_daily_scores (roster : List Player) (week : Week)
    (injuryStatusList : List String) : List ℕ → Option (List (ℚ × ℚ))
  | [] => some []
  | day :: rest =>
    match (player_stat_triples (eligible_players roster week day injuryStatusList)).map
        (fun player_stats =>
          let top_stats := (List.insertionSort by_avg_desc player_stats).take 9
          ((top_stats.map (fun x => x.1)).sum, (top_stats.map (fun x => x.2.1)).sum)),
        remaining_daily_scores roster week injuryStatusList rest with
    | some dv, some rs => some (dv :: rs)
    | _, _ => none

/-- The suffix-sum table of `get_remaining_days_cumulative_scores`
(lines 343-358): entry `start_day` sums `daily_scores[start_day:]`.
The source stores `(cumulative_mean, sqrt(cumulative_variance))`; the
variance is kept here and the square root stated in the theorems. -/
def suffix_cumulative (daily_scores : List (ℚ × ℚ)) : List (ℚ × ℚ) :=
  (List.range daily_scores.length).map (fun start_day =>
    (((daily_scores.drop start_day).map Prod.fst).sum,
     ((daily_scores.drop start_day).map Prod.snd).sum))

/-- The first per-team loop of `get_remaining_days_cumulative_scores`
(lines 311-341), building `daily_predictions` in team order. -/
def daily_predictions_loop (week : Week) (day_of_week_override : ℕ)
    (injuryStatusList : List String) :
    List Team → Option (List (String × List (ℚ × ℚ)))
  | [] => some []
  | team :: rest =>
    match remaining_daily_scores team.roster week injuryStatusList
        (week_days week day_of_week_override),
        daily_predictions_loop week day_of_week_override injuryStatusList rest with
    | some daily_scores, some others =>
        some ((team.team_name, daily_scores) :: others)
    | _, _ => none

/-- Embeds `get_remaining_days_cumulative_scores` (lines 285-360): per-day
scores per team, then the suffix-cumulative table per team. -/
def get_remaining_days_cumulative_scores (league : League) (week_index : ℤ)
    (day_of_week_override : ℕ) (injuryStatusList : List String) :
    Option (List (String × List (ℚ × ℚ))) :=
  (daily_predictions_loop (Week.ofLeague league week_index) day_of_week_override
    injuryStatusList league.teams).map
    (List.map (fun nt => (nt.1, suffix_cumulative nt.2)))

/-! Concrete data used by the witnesses and counterexamples. -/

/-- The stat block of the spec's scoring-formula test vector. -/
def exampleStatBlock : StatBlock :=
  [("PTS", 20), ("3PTM", 2), ("FGA", 15), ("FGM", 8), ("FTA", 5),
   ("FTM", 4), ("REB", 5), ("AST", 3), ("STL", 1), ("BLK", 1), ("TO", 2)]

/-- The same block with the `FGA` category removed. -/
def missingFgaBlock : StatBlock :=
  [("PTS", 20), ("3PTM", 2), ("FGM", 8), ("FTA", 5),
   ("FTM", 4), ("REB", 5), ("AST", 3), ("STL", 1), ("BLK", 1), ("TO", 2)]

/-- A league with no teams and an empty schedule, for concrete witnesses. -/
def emptyLeague : League := { teams := [], proSchedule := fun _ => [] }

/-- A stat block carrying only points (every other required category 0),
so that the fantasy-point value is the `PTS` entry itself. -/
def ptsOnlyBlock (pts : ℚ) : StatBlock :=
  [("PTS", pts), ("FGA", 0), ("FGM", 0), ("FTA", 0), ("FTM", 0),
   ("REB", 0), ("AST", 0), ("STL", 0), ("TO", 0)]

/-- A healthy player of team `team` with a single stat period whose
fantasy-point value is `pts`. -/
def mkPlayer (team : String) (pts : ℚ) : Player :=
  { proTeam := team, injuryStatus := none,
    stats := [("2026_last_30", ⟨some (ptsOnlyBlock pts)⟩)] }

/-- A healthy player with three stat periods whose fantasy-point values are
`a`, `b` and `c`. -/
def mkPlayer3 (team : String) (a b c : ℚ) : Player :=
  { proTeam := team, injuryStatus := none,
    stats := [("2026_last_30", ⟨some (ptsOnlyBlock a)⟩),
              ("2026_last_15", ⟨some (ptsOnlyBlock b)⟩),
              ("2026_last_7", ⟨some (ptsOnlyBlock c)⟩)] }

/-- Fifteen players of one pro team with the distinct means 1 to 15. -/
def roster15 : List Player :=
  [mkPlayer "T" 1, mkPlayer "T" 2, mkPlayer "T" 3, mkPlayer "T" 4,
   mkPlayer "T" 5, mkPlayer "T" 6, mkPlayer "T" 7, mkPlayer "T" 8,
   mkPlayer "T" 9, mkPlayer "T" 10, mkPlayer "T" 11, mkPlayer "T" 12,
   mkPlayer "T" 13, mkPlayer "T" 14, mkPlayer "T" 15]

/-- Ten players of one pro team with the distinct means 1 to 10. -/
def roster10 : List Player :=
  [mkPlayer "T" 1, mkPlayer "T" 2, mkPlayer "T" 3, mkPlayer "T" 4,
   mkPlayer "T" 5, mkPlayer "T" 6, mkPlayer "T" 7, mkPlayer "T" 8,
   mkPlayer "T" 9, mkPlayer "T" 10]

/-- A one-day week in which team `T` plays. -/
def week1day : Week := { scoring_period := (0, 0), team_game_list := [["T"]] }

/-- A two-day week: team `A` plays on day 0, team `B` on day 1. -/
def week2day : Week := { scoring_period := (0, 1), team_game_list := [["A"], ["B"]] }

/-- The stat triples of the fifteen players, in roster order. -/
def triples15 : List (ℚ × ℚ × Player) :=
  [(1, 0, mkPlayer "T" 1), (2, 0, mkPlayer "T" 2), (3, 0, mkPlayer "T" 3),
   (4, 0, mkPlayer "T" 4), (5, 0, mkPlayer "T" 5), (6, 0, mkPlayer "T" 6),
   (7, 0, mkPlayer "T" 7), (8, 0, mkPlayer "T" 8), (9, 0, mkPlayer "T" 9),
   (10, 0, mkPlayer "T" 10), (11, 0, mkPlayer "T" 11),
   (12, 0, mkPlayer "T" 12), (13, 0, mkPlayer "T" 13),
   (14, 0, mkPlayer "T" 14), (15, 0, mkPlayer "T" 15)]

/-- A player whose fantasy-point samples are `0, 2, 4` (mean 2, sample
variance 4), playing for team `A`. -/
def playerVarA : Player := mkPlayer3 "A" 0 2 4

/-- A player whose fantasy-point samples are `0, 3, 6` (mean 3, sample
variance 9), playing for team `B`. -/
def playerVarB : Player := mkPlayer3 "B" 0 3 6

/-- The two-player roster whose two days have variance totals 4 and 9. -/
def rosterVar : List Player := [playerVarA, playerVarB]

/-- A player present on the schedule whose injury status is the empty
string (attribute present but empty). -/
def emptyStatusPlayer : Player :=
  { proTeam := "T", injuryStatus := some "",
    stats := [("2026_last_30", ⟨some (ptsOnlyBlock 5)⟩)] }

/-- A player with injury status `OUT`. -/
def outPlayer : Player :=
  { proTeam := "T", injuryStatus := some "OUT",
    stats := [("2026_last_30", ⟨some (ptsOnlyBlock 5)⟩)] }

/-- A one-team league whose single player scores 30 and whose pro team
`LAL` plays only on scoring period 0. -/
def leagueW : League :=
  { teams := [{ team_name := "Team A", roster := [mkPlayer "LAL" 30] }],
    proSchedule := fun sp => if sp = 0 then ["LAL"] else [] }

/-- The per-day scores of `leagueW`'s team over week 1: 30 on day 0,
nothing afterwards. -/
def dailyW : List (ℚ × ℚ) :=
  [(30, 0), (0, 0), (0, 0), (0, 0), (0, 0), (0, 0), (0, 0), (0, 0)]

/-! Helper lemmas. -/

/-- Elements kept by `take n` of a pairwise-ordered list dominate the
dropped ones. -/
theorem pairwise_take_drop {α : Type} {r : α → α → Prop} {l : List α}
    (h : List.Pairwise r l) (n : ℕ) :
    ∀ x ∈ l.take n, ∀ y ∈ l.drop n, r x y := by
  have happ : List.Pairwise r (l.take n ++ l.drop n) := by
    rw [List.take_append_drop]
    exact h
  exact fun x hx y hy => (List.pairwise_append.mp happ).2.2 x hx y hy

/-- A successful `player_stat_triples` pairs each eligible player, in
order, with its `get_avg_variance_stats` estimate. -/
theorem player_stat_triples_spec :
    ∀ (players : List Player) (triples : List (ℚ × ℚ × Player)),
      player_stat_triples players = some triples →
      List.Forall₂
        (fun p t => get_avg_variance_stats p = some (t.1, t.2.1) ∧ t.2.2 = p)
        players triples
  | [], triples, h => by
    simp only [player_stat_triples, Option.some.injEq] at h
    subst h
    exact List.Forall₂.nil
  | p :: ps, triples, h => by
    rw [player_stat_triples] at h
    cases hmv : get_avg_variance_stats p with
    | none => rw [hmv] at h; cases h
    | some mv =>
      rw [hmv] at h
      cases hrest : player_stat_triples ps with
      | none => rw [hrest] at h; cases h
      | some rest =>
        rw [hrest] at h
        cases h
        exact List.Forall₂.cons ⟨by simpa using hmv, rfl⟩
          (player_stat_triples_spec ps rest hrest)

/-- The fantasy-point value of a points-only block is its `PTS` entry. -/
theorem get_fantasy_pts_ptsOnlyBlock (pts : ℚ) :
    get_fantasy_pts (ptsOnlyBlock pts) = some pts := by
  simp [get_fantasy_pts, ptsOnlyBlock, get_stat_in_category, List.lookup]

/-- A single-period player has a value for its one period and `None`
elsewhere. -/
theorem collect_fpts_mkPlayer (team : String) (pts : ℚ) :
    collect_fpts (mkPlayer team pts) stat_period_list
      = some [some pts, none, none, none] := by
  rw [stat_period_list, collect_fpts, collect_fpts, collect_fpts, collect_fpts,
    collect_fpts]
  simp [get_stat_from_stat_period, mkPlayer, List.lookup,
    get_fantasy_pts_ptsOnlyBlock]

/-- The estimate of a single-period player is `(pts, 0)`. -/
theorem mkPlayer_stats (team : String) (pts : ℚ) :
    get_avg_variance_stats (mkPlayer team pts) = some (pts, 0) := by
  rw [get_avg_variance_stats, collect_fpts_mkPlayer team pts]
  simp [List.filterMap_cons, listMean]

/-- A three-period player has values for the three periods and `None` for
the projection. -/
theorem collect_fpts_mkPlayer3 (team : String) (a b c : ℚ) :
    collect_fpts (mkPlayer3 team a b c) stat_period_list
      = some [some a, some b, some c, none] := by
  rw [stat_period_list, collect_fpts, collect_fpts, collect_fpts, collect_fpts,
    collect_fpts]
  simp [get_stat_from_stat_period, mkPlayer3, List.lookup,
    get_fantasy_pts_ptsOnlyBlock]

/-- The estimate of a three-period player is the mean and sample variance
of its three values. -/
theorem mkPlayer3_stats (team : String) (a b c : ℚ) :
    get_avg_variance_stats (mkPlayer3 team a b c)
      = some (listMean [a, b, c], sampleVariance [a, b, c]) := by
  rw [get_avg_variance_stats, collect_fpts_mkPlayer3 team a b c]
  simp [List.filterMap_cons]

/-- Length of the resolved per-day team-set list. -/
theorem team_game_list_length_eq (league : League) (w : ℤ) :
    (Week.ofLeague league w).team_game_list.length =
      ((match_up_week_to_scoring_period_convert w).2
        - (match_up_week_to_scoring_period_convert w).1 + 1).toNat := by
  simp only [Week.ofLeague, get_team_game_list, List.length_map,
    List.length_range]

/-! Claim theorems and their witnesses. -/

/-- C3: for every stat block holding values for all eleven scoring
categories, `get_fantasy_pts` returns
`PTS + 3PTM - FGA + 2*FGM - FTA + FTM + REB + 2*AST + 4*STL + 4*BLK - 2*TO`. -/
theorem c3_scoring_formula_exact (stats : StatBlock)
    (pts p3 fga fgm fta ftm reb ast stl blk tov : ℚ)
    (hpts : stats.lookup "PTS" = some pts)
    (hp3 : stats.lookup "3PTM" = some p3)
    (hfga : stats.lookup "FGA" = some fga)
    (hfgm : stats.lookup "FGM" = some fgm)
    (hfta : stats.lookup "FTA" = some fta)
    (hftm : stats.lookup "FTM" = some ftm)
    (hreb : stats.lookup "REB" = some reb)
    (hast : stats.lookup "AST" = some ast)
    (hstl : stats.lookup "STL" = some stl)
    (hblk : stats.lookup "BLK" = some blk)
    (htov : stats.lookup "TO" = some tov) :
    get_fantasy_pts stats =
      some (pts + p3 - fga + 2 * fgm - fta + ftm + reb + 2 * ast
        + 4 * stl + 4 * blk - 2 * tov) := by
  simp [get_fantasy_pts, get_stat_in_category, hpts, hp3, hfga, hfgm, hfta,
    hftm, hreb, hast, hstl, hblk, htov]
  ring

/-- Witness for C3: on the spec's concrete block the formula yields 37. -/
theorem c3_scoring_formula_exact_witness :
    get_fantasy_pts exampleStatBlock = some 37 := by
  have h := c3_scoring_formula_exact exampleStatBlock
    20 2 15 8 5 4 5 3 1 1 2
    (by rfl) (by rfl) (by rfl) (by rfl) (by rfl) (by rfl)
    (by rfl) (by rfl) (by rfl) (by rfl) (by rfl)
  rw [h]
  norm_num

/-- C8: week 1 resolves to the inclusive scoring-period range `[0, 7]`
(8 days), every week `w > 1` to `[7*(w-1), 7*w-1]` (7 days), week 2 in
particular to `[7, 13]`, and the per-day team-set list always has
`last - first + 1` entries when `1 ≤ w`. -/
theorem c8_week_to_scoring_period (league : League) (w : ℤ) :
    (w = 1 → match_up_week_to_scoring_period_convert w = (0, 7)
      ∧ (Week.ofLeague league w).team_game_list.length = 8)
    ∧ (1 < w → match_up_week_to_scoring_period_convert w = (7 * (w - 1), 7 * w - 1)
      ∧ (Week.ofLeague league w).team_game_list.length = 7)
    ∧ (1 ≤ w → ((Week.ofLeague league w).team_game_list.length : ℤ)
      = (Week.ofLeague league w).scoring_period.2
        - (Week.ofLeague league w).scoring_period.1 + 1)
    ∧ match_up_week_to_scoring_period_convert 2 = (7, 13) := by
  have hlen := team_game_list_length_eq league w
  refine ⟨fun h1 => ?_, fun h2 => ?_, fun hge => ?_, by norm_num
    [match_up_week_to_scoring_period_convert]⟩
  · subst h1
    refine ⟨by norm_num [match_up_week_to_scoring_period_convert], ?_⟩
    rw [hlen, match_up_week_to_scoring_period_convert, if_pos rfl]
    omega
  · have hne : ¬ w = 1 := by omega
    refine ⟨by rw [match_up_week_to_scoring_period_convert, if_neg hne], ?_⟩
    rw [hlen, match_up_week_to_scoring_period_convert, if_neg hne]
    simp only []
    omega
  · have hsp : (Week.ofLeague league w).scoring_period
        = match_up_week_to_scoring_period_convert w := rfl
    rw [hlen, hsp, match_up_week_to_scoring_period_convert]
    by_cases h1 : w = 1
    · rw [if_pos h1]
      norm_num
    · rw [if_neg h1]
      simp only []
      omega

/-- Witness for C8 at weeks 1 and 2 of a concrete league. -/
theorem c8_week_to_scoring_period_witness :
    match_up_week_to_scoring_period_convert 1 = (0, 7)
    ∧ (Week.ofLeague emptyLeague 1).team_game_list.length = 8
    ∧ match_up_week_to_scoring_period_convert 2 = (7, 13)
    ∧ (Week.ofLeague emptyLeague 2).team_game_list.length = 7 := by
  have h1 := (c8_week_to_scoring_period emptyLeague 1).1 rfl
  have h2 := (c8_week_to_scoring_period emptyLeague 2).2.1 (by norm_num)
  have h3 := (c8_week_to_scoring_period emptyLeague 2).2.2.2
  exact ⟨h1.1, h1.2, h3, h2.2⟩

/-- C1: the per-day step of `predict` filters the roster to the playing,
injury-eligible players, computes each survivor's `(mean, variance)`
estimate, sorts those stably in descending mean order, keeps the first
`daily_active_size` entries, and returns their mean and variance sums; the
kept entries dominate the dropped ones (so with distinct means the mean
sum is the sum of the largest means), and an empty eligible set yields
`(0, 0)`. -/
theorem c1_daily_cap (roster : List Player) (week : Week) (day : ℕ)
    (injuryStatusList : List String) (daily_active_size : ℕ)
    (triples : List (ℚ × ℚ × Player))
    (h : player_stat_triples (eligible_players roster week day injuryStatusList)
      = some triples) :
    simulate_day roster week day injuryStatusList daily_active_size =
      some
        ((((List.insertionSort by_avg_desc triples).take daily_active_size).map
          (fun x => x.1)).sum,
         (((List.insertionSort by_avg_desc triples).take daily_active_size).map
          (fun x => x.2.1)).sum)
    ∧ List.Forall₂
        (fun p t => get_avg_variance_stats p = some (t.1, t.2.1) ∧ t.2.2 = p)
        (eligible_players roster week day injuryStatusList) triples
    ∧ List.Perm (List.insertionSort by_avg_desc triples) triples
    ∧ List.Sorted by_avg_desc (List.insertionSort by_avg_desc triples)
    ∧ (∀ x ∈ (List.insertionSort by_avg_desc triples).take daily_active_size,
        ∀ y ∈ (List.insertionSort by_avg_desc triples).drop daily_active_size,
        y.1 ≤ x.1)
    ∧ (eligible_players roster week day injuryStatusList = [] →
        simulate_day roster week day injuryStatusList daily_active_size
          = some (0, 0)) := by
  refine ⟨by simp [simulate_day, h], player_stat_triples_spec _ _ h,
    List.perm_insertionSort by_avg_desc triples,
    List.sorted_insertionSort by_avg_desc triples,
    fun x hx y hy =>
      pairwise_take_drop (List.sorted_insertionSort by_avg_desc triples)
        daily_active_size x hx y hy,
    fun he => ?_⟩
  simp [simulate_day, he, player_stat_triples, List.insertionSort]

set_option maxHeartbeats 1000000 in
/-- Witness for C1: with the fifteen distinct means 1..15 and cap 9 the day
mean total is `15 + 14 + ... + 7 = 99`, the sum of the 9 largest means. -/
theorem c1_daily_cap_witness :
    simulate_day roster15 week1day 0 ["ACTIVE"] 9 = some (99, 0) := by
  have he : eligible_players roster15 week1day 0 ["ACTIVE"] = roster15 := by
    simp [eligible_players, players_with_game, effective_injury_status,
      roster15, week1day, mkPlayer]
  have h : player_stat_triples (eligible_players roster15 week1day 0 ["ACTIVE"])
      = some triples15 := by
    rw [he]
    simp [roster15, triples15, player_stat_triples, mkPlayer_stats]
  have hc := (c1_daily_cap roster15 week1day 0 ["ACTIVE"] 9 triples15 h).1
  rw [hc]
  norm_num [triples15, List.insertionSort, List.orderedInsert, by_avg_desc]

/-- The sample variance is never negative. -/
theorem sampleVariance_nonneg (xs : List ℚ) : 0 ≤ sampleVariance xs := by
  rw [sampleVariance]
  rcases xs with _ | ⟨x, rest⟩
  · simp
  · apply div_nonneg
    · apply List.sum_nonneg
      intro y hy
      obtain ⟨z, _, rfl⟩ := List.mem_map.mp hy
      exact sq_nonneg _
    · have h1 : (0 : ℚ) ≤ rest.length := Nat.cast_nonneg _
      simp only [List.length_cons]
      push_cast
      linarith

/-- C4: when the collected per-period fantasy-point values raise no
exception, `get_avg_variance_stats` returns `(0, 0)` on zero usable
samples, `(mean, 0)` on one, `(mean, unbiased sample variance)` on two or
more, and the returned variance is never negative. -/
theorem c4_player_estimate (player : Player) (opts : List (Option ℚ))
    (h : collect_fpts player stat_period_list = some opts) :
    (opts.filterMap id = [] → get_avg_variance_stats player = some (0, 0))
    ∧ ((opts.filterMap id).length = 1 →
        get_avg_variance_stats player = some (listMean (opts.filterMap id), 0))
    ∧ (2 ≤ (opts.filterMap id).length →
        get_avg_variance_stats player
          = some (listMean (opts.filterMap id), sampleVariance (opts.filterMap id)))
    ∧ ∀ m v, get_avg_variance_stats player = some (m, v) → 0 ≤ v := by
  have hg : get_avg_variance_stats player = some (
      if opts.filterMap id = [] then ((0 : ℚ), (0 : ℚ))
      else (listMean (opts.filterMap id),
        if 1 < (opts.filterMap id).length then sampleVariance (opts.filterMap id)
        else 0)) := by
    rw [get_avg_variance_stats, h]
    rfl
  have case0 : opts.filterMap id = [] →
      get_avg_variance_stats player = some (0, 0) := fun he => by
    rw [hg, if_pos he]
  have case1 : (opts.filterMap id).length = 1 →
      get_avg_variance_stats player
        = some (listMean (opts.filterMap id), 0) := fun h1 => by
    have hne : opts.filterMap id ≠ [] := by
      intro hx
      rw [hx] at h1
      simp at h1
    rw [hg, if_neg hne, if_neg (by omega)]
  have case2 : 2 ≤ (opts.filterMap id).length →
      get_avg_variance_stats player
        = some (listMean (opts.filterMap id),
            sampleVariance (opts.filterMap id)) := fun h2 => by
    have hne : opts.filterMap id ≠ [] := by
      intro hx
      rw [hx] at h2
      simp at h2
    rw [hg, if_neg hne, if_pos (by omega)]
  refine ⟨case0, case1, case2, fun m v hmv => ?_⟩
  by_cases h0 : opts.filterMap id = []
  · have h00 := (case0 h0).symm.trans hmv
    simp only [Option.some.injEq, Prod.mk.injEq] at h00
    rw [← h00.2]
  · by_cases h1 : (opts.filterMap id).length = 1
    · have h11 := (case1 h1).symm.trans hmv
      simp only [Option.some.injEq, Prod.mk.injEq] at h11
      rw [← h11.2]
    · have hlen0 : (opts.filterMap id).length ≠ 0 := by
        simpa [List.length_eq_zero] using h0
      have h22 := (case2 (by omega)).symm.trans hmv
      simp only [Option.some.injEq, Prod.mk.injEq] at h22
      rw [← h22.2]
      exact sampleVariance_nonneg _

/-- Witness for C4: a player with the three samples 1, 2, 3 gets the mean 2
and the unbiased sample variance 1, which is not negative. -/
theorem c4_player_estimate_witness :
    get_avg_variance_stats (mkPlayer3 "T" 1 2 3) = some (2, 1)
    ∧ (0 : ℚ) ≤ 1 := by
  have h := c4_player_estimate (mkPlayer3 "T" 1 2 3) [some 1, some 2, some 3, none]
    (collect_fpts_mkPlayer3 "T" 1 2 3)
  have h2 := h.2.2.1 (by simp [List.filterMap_cons])
  have heq : get_avg_variance_stats (mkPlayer3 "T" 1 2 3) = some (2, 1) := by
    rw [h2]
    norm_num [listMean, sampleVariance, List.filterMap_cons]
  exact ⟨heq, h.2.2.2 2 1 heq⟩

/-- The accumulation loop of `predict` computes the sums of the per-day
outcomes, shifted by its accumulator. -/
theorem predict_loop_eq (roster : List Player) (week : Week)
    (injuryStatusList : List String) (daily_active_size : ℕ) :
    ∀ (days : List ℕ) (acc : ℚ × ℚ),
      predict_loop roster week injuryStatusList daily_active_size days acc
        = (simulate_days roster week injuryStatusList daily_active_size days).map
            (fun rs => (acc.1 + (rs.map Prod.fst).sum, acc.2 + (rs.map Prod.snd).sum))
  | [], acc => by simp [predict_loop, simulate_days]
  | day :: rest, acc => by
    rw [predict_loop, simulate_days]
    cases hd : simulate_day roster week day injuryStatusList daily_active_size with
    | none => simp
    | some dv =>
      have ih := predict_loop_eq roster week injuryStatusList daily_active_size
        rest (acc.1 + dv.1, acc.2 + dv.2)
      cases hr : simulate_days roster week injuryStatusList daily_active_size rest with
      | none => simp [ih, hr]
      | some rs =>
        simp only [ih, hr, Option.map_some', List.map_cons, List.sum_cons,
          Option.some.injEq, Prod.mk.injEq]
        constructor <;> ring

/-- C2: when every iterated day simulates without exception, `predict`
accumulates the per-day mean totals into the total mean and the per-day
variance totals into the variance accumulator to which the source applies
its single final `math.sqrt`; with day variances 4 and 9 that accumulator
is 13, and `sqrt 13` differs from `5 = sqrt 4 + sqrt 9`. -/
theorem c2_week_uncertainty (roster : List Player) (week : Week)
    (daily_active_size starting_day : ℕ) (injuryStatusList : List String)
    (rs : List (ℚ × ℚ))
    (h : simulate_days roster week injuryStatusList daily_active_size
      (week_days week starting_day) = some rs) :
    predict roster week daily_active_size starting_day injuryStatusList
      = some ((rs.map Prod.fst).sum, (rs.map Prod.snd).sum)
    ∧ (rs.map Prod.snd = [4, 9] →
        ((rs.map Prod.snd).sum : ℚ) = 13
        ∧ Real.sqrt (((13 : ℚ) : ℝ)) ≠ 5
        ∧ Real.sqrt (((13 : ℚ) : ℝ)) ≠ Real.sqrt 4 + Real.sqrt 9) := by
  constructor
  · rw [predict, predict_loop_eq, h]
    simp
  · intro hv
    have hsum : ((rs.map Prod.snd).sum : ℚ) = 13 := by
      rw [hv]
      norm_num
    have h13 : (((13 : ℚ)) : ℝ) = (13 : ℝ) := by norm_num
    have hne : Real.sqrt (13 : ℝ) ≠ 5 := by
      intro habs
      have hsq := Real.sq_sqrt (by norm_num : (0 : ℝ) ≤ 13)
      rw [habs] at hsq
      norm_num at hsq
    have h4 : Real.sqrt (4 : ℝ) = 2 := by
      rw [show (4 : ℝ) = 2 ^ 2 by norm_num]
      exact Real.sqrt_sq (by norm_num)
    have h9 : Real.sqrt (9 : ℝ) = 3 := by
      rw [show (9 : ℝ) = 3 ^ 2 by norm_num]
      exact Real.sqrt_sq (by norm_num)
    refine ⟨hsum, by rw [h13]; exact hne, ?_⟩
    rw [h13, h4, h9]
    have h23 : (2 : ℝ) + 3 = 5 := by norm_num
    rw [h23]
    exact hne

/-- Witness for C2: two days with variance totals 4 and 9 give the pair
`(5, 13)` before the final square root, and `sqrt 13 ≠ 5`. -/
theorem c2_week_uncertainty_witness :
    predict rosterVar week2day 9 0 ["ACTIVE"] = some (5, 13)
    ∧ Real.sqrt (((13 : ℚ) : ℝ)) ≠ 5 := by
  have hA : get_avg_variance_stats playerVarA = some (2, 4) := by
    rw [playerVarA, mkPlayer3_stats]
    norm_num [listMean, sampleVariance]
  have hB : get_avg_variance_stats playerVarB = some (3, 9) := by
    rw [playerVarB, mkPlayer3_stats]
    norm_num [listMean, sampleVariance]
  have he0 : eligible_players rosterVar week2day 0 ["ACTIVE"] = [playerVarA] := by
    simp [eligible_players, players_with_game, effective_injury_status,
      rosterVar, playerVarA, playerVarB, week2day, mkPlayer3]
  have he1 : eligible_players rosterVar week2day 1 ["ACTIVE"] = [playerVarB] := by
    simp [eligible_players, players_with_game, effective_injury_status,
      rosterVar, playerVarA, playerVarB, week2day, mkPlayer3]
  have hd0 : simulate_day rosterVar week2day 0 ["ACTIVE"] 9 = some (2, 4) := by
    rw [simulate_day, he0]
    simp [player_stat_triples, hA, List.insertionSort, List.orderedInsert]
  have hd1 : simulate_day rosterVar week2day 1 ["ACTIVE"] 9 = some (3, 9) := by
    rw [simulate_day, he1]
    simp [player_stat_triples, hB, List.insertionSort, List.orderedInsert]
  have hw : week_days week2day 0 = [0, 1] := by decide
  have h : simulate_days rosterVar week2day ["ACTIVE"] 9 (week_days week2day 0)
      = some [(2, 4), (3, 9)] := by
    rw [hw]
    simp [simulate_days, hd0, hd1]
  have hc := c2_week_uncertainty rosterVar week2day 9 0 ["ACTIVE"]
    [(2, 4), (3, 9)] h
  refine ⟨?_, (hc.2 (by norm_num)).2.1⟩
  rw [hc.1]
  norm_num

/-- An absent directly subscripted category makes `get_fantasy_pts` raise. -/
theorem get_fantasy_pts_raises (stats : StatBlock) (cat : String)
    (hcat : cat ∈ (["FGA", "FGM", "FTA", "FTM", "REB", "AST", "STL", "TO"] :
      List String))
    (hnone : stats.lookup cat = none) : get_fantasy_pts stats = none := by
  fin_cases hcat <;> simp [get_fantasy_pts, hnone, Option.bind_eq_none]

/-- Counterexample to C5 as stated: a stat block missing its `FGA` entry
makes `get_fantasy_pts` raise a `KeyError` (here `none`) instead of
treating the value as 0. -/
theorem c5_counterexample : get_fantasy_pts missingFgaBlock = none := by
  have h : missingFgaBlock.lookup "FGA" = none := by rfl
  simp [get_fantasy_pts, h]

/-- C5 amended: only `PTS`, `3PTM` and `BLK` default to 0 when absent; an
absent `FGA`, `FGM`, `FTA`, `FTM`, `REB`, `AST`, `STL` or `TO` makes
`get_fantasy_pts` raise (`none`); when the eight direct categories are
present the formula evaluates with the three optional ones defaulted. -/
theorem c5_missing_category_tolerance (stats : StatBlock) :
    (∀ cat, cat ∈ (["PTS", "3PTM", "BLK"] : List String) →
      stats.lookup cat = none → get_stat_in_category stats cat = 0)
    ∧ (∀ cat, cat ∈ (["FGA", "FGM", "FTA", "FTM", "REB", "AST", "STL", "TO"] :
        List String) → stats.lookup cat = none → get_fantasy_pts stats = none)
    ∧ (∀ fga fgm fta ftm reb ast stl tov : ℚ,
        stats.lookup "FGA" = some fga → stats.lookup "FGM" = some fgm →
        stats.lookup "FTA" = some fta → stats.lookup "FTM" = some ftm →
        stats.lookup "REB" = some reb → stats.lookup "AST" = some ast →
        stats.lookup "STL" = some stl → stats.lookup "TO" = some tov →
        get_fantasy_pts stats = some (get_stat_in_category stats "PTS"
          + get_stat_in_category stats "3PTM" - fga + 2 * fgm - fta + ftm + reb
          + 2 * ast + 4 * stl + 4 * get_stat_in_category stats "BLK"
          - 2 * tov)) := by
  refine ⟨?_, ?_, ?_⟩
  · intro cat _ hnone
    simp [get_stat_in_category, hnone]
  · intro cat hcat hnone
    exact get_fantasy_pts_raises stats cat hcat hnone
  · intro fga fgm fta ftm reb ast stl tov h1 h2 h3 h4 h5 h6 h7 h8
    simp [get_fantasy_pts, h1, h2, h3, h4, h5, h6, h7, h8]
    ring

/-- Witness for C5 (amended): the absent `BLK` of a points-only block reads
as 0, while the block missing `FGA` raises. -/
theorem c5_missing_category_tolerance_witness :
    get_stat_in_category (ptsOnlyBlock 7) "BLK" = 0
    ∧ get_fantasy_pts missingFgaBlock = none := by
  have h1 := (c5_missing_category_tolerance (ptsOnlyBlock 7)).1 "BLK"
    (by simp) (by rfl)
  have h2 := (c5_missing_category_tolerance missingFgaBlock).2.1 "FGA"
    (by simp) (by rfl)
  exact ⟨h1, h2⟩

/-- Counterexample to C7 as stated: a player whose injury status is the
empty string is eligible under the spec's reading (absent or empty treated
as `ACTIVE`) but the code's `getattr` default only covers an absent
attribute, so the player is excluded from the day's sums. -/
theorem c7_counterexample :
    spec_eligible_players [emptyStatusPlayer] week1day 0 ["ACTIVE"]
      = [emptyStatusPlayer]
    ∧ eligible_players [emptyStatusPlayer] week1day 0 ["ACTIVE"] = []
    ∧ simulate_day [emptyStatusPlayer] week1day 0 ["ACTIVE"] 9 = some (0, 0)
    ∧ get_avg_variance_stats emptyStatusPlayer = some (5, 0) := by
  have he : eligible_players [emptyStatusPlayer] week1day 0 ["ACTIVE"] = [] := by
    simp [eligible_players, players_with_game, effective_injury_status,
      emptyStatusPlayer, week1day]
  refine ⟨?_, he, ?_, ?_⟩
  · simp [spec_eligible_players, players_with_game,
      spec_effective_injury_status, emptyStatusPlayer, week1day]
  · rw [simulate_day, he]
    simp [player_stat_triples, List.insertionSort]
  · have hcf : collect_fpts emptyStatusPlayer stat_period_list
        = some [some 5, none, none, none] := by
      rw [stat_period_list, collect_fpts, collect_fpts, collect_fpts,
        collect_fpts, collect_fpts]
      simp [get_stat_from_stat_period, emptyStatusPlayer, List.lookup,
        get_fantasy_pts_ptsOnlyBlock]
    rw [get_avg_variance_stats, hcf]
    simp [List.filterMap_cons, listMean]

/-- C7 amended: a player is eligible exactly when their team plays and
their effective status (absent attribute read as `ACTIVE`; an empty string
is kept as the empty string) is in the allow-list; an `OUT` player is
excluded under the default `["ACTIVE"]` list — contributing to neither the
sums nor the game count — and included when `"OUT"` is allowed. -/
theorem c7_injury_eligibility (roster : List Player) (week : Week) (day : ℕ)
    (injuryStatusList : List String) (p : Player) :
    (p ∈ eligible_players roster week day injuryStatusList ↔
      p ∈ players_with_game roster week day
      ∧ effective_injury_status p ∈ injuryStatusList)
    ∧ (p.injuryStatus = none → effective_injury_status p = "ACTIVE")
    ∧ (p.injuryStatus = some "OUT" →
        p ∉ eligible_players roster week day ["ACTIVE"])
    ∧ (p.injuryStatus = some "OUT" → "OUT" ∈ injuryStatusList →
        p ∈ players_with_game roster week day →
        p ∈ eligible_players roster week day injuryStatusList)
    ∧ (p.injuryStatus = some "OUT" → ∀ d : ℕ,
        eligible_players (p :: roster) week d ["ACTIVE"]
          = eligible_players roster week d ["ACTIVE"])
    ∧ (p.injuryStatus = some "OUT" → ∀ cap sd : ℕ,
        get_total_number_of_games (p :: roster) week cap sd ["ACTIVE"]
          = get_total_number_of_games roster week cap sd ["ACTIVE"]) := by
  have hcons : p.injuryStatus = some "OUT" → ∀ d : ℕ,
      eligible_players (p :: roster) week d ["ACTIVE"]
        = eligible_players roster week d ["ACTIVE"] := by
    intro hout d
    have hp2 : effective_injury_status p = "OUT" := by
      simp [effective_injury_status, hout]
    simp only [eligible_players, players_with_game, List.filter_cons]
    by_cases hplay : ((week.team_game_list.getD d []).contains p.proTeam) = true
    · rw [if_pos hplay, List.filter_cons, hp2]
      simp
    · rw [if_neg hplay]
  refine ⟨?_, ?_, ?_, ?_, hcons, ?_⟩
  · simp [eligible_players, List.mem_filter]
  · intro h
    simp [effective_injury_status, h]
  · intro hout
    simp [eligible_players, List.mem_filter, effective_injury_status, hout]
  · intro hout hmem hplay
    simp [eligible_players, List.mem_filter, effective_injury_status, hout,
      hplay, hmem]
  · intro hout cap sd
    simp [get_total_number_of_games, hcons hout]

/-- Witness for C7 (amended): the `OUT` player is excluded under
`["ACTIVE"]`, included once `"OUT"` is allowed, and adds nothing to the
game count. -/
theorem c7_injury_eligibility_witness :
    outPlayer ∉ eligible_players [outPlayer] week1day 0 ["ACTIVE"]
    ∧ outPlayer ∈ eligible_players [outPlayer] week1day 0 ["ACTIVE", "OUT"]
    ∧ get_total_number_of_games [outPlayer] week1day 9 0 ["ACTIVE"] = 0 := by
  have h1 := (c7_injury_eligibility [outPlayer] week1day 0 ["ACTIVE"]
    outPlayer).2.2.1 rfl
  have h2 := (c7_injury_eligibility [outPlayer] week1day 0 ["ACTIVE", "OUT"]
    outPlayer).2.2.2.1 rfl (by simp)
    (by simp [players_with_game, week1day, outPlayer])
  have h3 := (c7_injury_eligibility [] week1day 0 ["ACTIVE"]
    outPlayer).2.2.2.2.2 rfl 9 0
  refine ⟨h1, h2, ?_⟩
  rw [h3]
  simp [get_total_number_of_games, eligible_players, players_with_game]

set_option maxHeartbeats 1000000 in
/-- Counterexample to C6 as stated: `RosterWeekPredictor.predict` called
without a `daily_active_size` uses its signature default 10, not 9 — on a
one-day week with ten eligible players of means 1..10 it counts all ten
(total 55), while a cap of 9 would drop the smallest (total 54). -/
theorem c6_counterexample :
    predict_default_daily_active_size = 10
    ∧ predict roster10 week1day predict_default_daily_active_size 0 ["ACTIVE"]
      = some (55, 0)
    ∧ predict roster10 week1day 9 0 ["ACTIVE"] = some (54, 0)
    ∧ ((55 : ℚ), (0 : ℚ)) ≠ ((54 : ℚ), (0 : ℚ)) := by
  have he : eligible_players roster10 week1day 0 ["ACTIVE"] = roster10 := by
    simp [eligible_players, players_with_game, effective_injury_status,
      roster10, week1day, mkPlayer]
  have ht : player_stat_triples roster10 = some
      [(1, 0, mkPlayer "T" 1), (2, 0, mkPlayer "T" 2), (3, 0, mkPlayer "T" 3),
       (4, 0, mkPlayer "T" 4), (5, 0, mkPlayer "T" 5), (6, 0, mkPlayer "T" 6),
       (7, 0, mkPlayer "T" 7), (8, 0, mkPlayer "T" 8), (9, 0, mkPlayer "T" 9),
       (10, 0, mkPlayer "T" 10)] := by
    simp [roster10, player_stat_triples, mkPlayer_stats]
  have hw : week_days week1day 0 = [0] := by decide
  have hd10 : simulate_day roster10 week1day 0 ["ACTIVE"]
      predict_default_daily_active_size = some (55, 0) := by
    rw [simulate_day, he, ht]
    norm_num [predict_default_daily_active_size, List.insertionSort,
      List.orderedInsert, by_avg_desc]
  have hd9 : simulate_day roster10 week1day 0 ["ACTIVE"] 9 = some (54, 0) := by
    rw [simulate_day, he, ht]
    norm_num [List.insertionSort, List.orderedInsert, by_avg_desc]
  refine ⟨rfl, ?_, ?_, by norm_num⟩
  · rw [predict, hw]
    simp [predict_loop, hd10]
  · rw [predict, hw]
    simp [predict_loop, hd9]

/-- A successful `predict_week_loop` pairs each team, in order, with a
game count and a score both computed with the daily cap 9. -/
theorem predict_week_loop_spec (week : Week) (day_of_week_override : ℕ)
    (injuryStatusList : List String) :
    ∀ (teams : List Team)
      (maps : List (String × ℕ) × List (String × (ℚ × ℚ))),
      predict_week_loop week day_of_week_override injuryStatusList teams
        = some maps →
      List.Forall₂ (fun team entry => entry.1 = team.team_name
          ∧ entry.2 = get_total_number_of_games team.roster week 9
              day_of_week_override injuryStatusList)
        teams maps.1
      ∧ List.Forall₂ (fun team entry => entry.1 = team.team_name
          ∧ predict team.roster week 9 day_of_week_override injuryStatusList
              = some entry.2)
        teams maps.2
  | [], maps, h => by
    simp only [predict_week_loop, Option.some.injEq] at h
    subst h
    exact ⟨List.Forall₂.nil, List.Forall₂.nil⟩
  | team :: rest, maps, h => by
    rw [predict_week_loop] at h
    cases hp : predict team.roster week 9 day_of_week_override injuryStatusList with
    | none => rw [hp] at h; cases h
    | some score =>
      rw [hp] at h
      cases hr : predict_week_loop week day_of_week_override injuryStatusList rest with
      | none => rw [hr] at h; cases h
      | some maps2 =>
        rw [hr] at h
        cases h
        obtain ⟨ih1, ih2⟩ := predict_week_loop_spec week day_of_week_override
          injuryStatusList rest maps2 hr
        exact ⟨List.Forall₂.cons ⟨rfl, rfl⟩ ih1, List.Forall₂.cons ⟨rfl, hp⟩ ih2⟩

/-- C6 amended: `predict`'s own signature default is 10, but the week
prediction driver `PredictWeekHelper.predict_week` always passes
`daily_active_size=9` to `predict` (and `get_total_number_of_games` runs
with its default 9), so week predictions made through `predict_week` use
the top-9 cap. -/
theorem c6_default_daily_cap (league : League) (week_index : ℤ)
    (day_of_week_override : ℕ) (injuryStatusList : List String)
    (maps : List (String × ℕ) × List (String × (ℚ × ℚ)))
    (h : predict_week league week_index day_of_week_override injuryStatusList
      = some maps) :
    predict_default_daily_active_size = 10
    ∧ List.Forall₂ (fun team entry => entry.1 = team.team_name
        ∧ entry.2 = get_total_number_of_games team.roster
            (Week.ofLeague league week_index) 9 day_of_week_override
            injuryStatusList)
      league.teams maps.1
    ∧ List.Forall₂ (fun team entry => entry.1 = team.team_name
        ∧ predict team.roster (Week.ofLeague league week_index) 9
            day_of_week_override injuryStatusList = some entry.2)
      league.teams maps.2 := by
  obtain ⟨h1, h2⟩ := predict_week_loop_spec (Week.ofLeague league week_index)
    day_of_week_override injuryStatusList league.teams maps h
  exact ⟨rfl, h1, h2⟩

/-- The resolved week-1 game lists of `leagueW`. -/
theorem leagueW_tgl : (Week.ofLeague leagueW 1).team_game_list
    = [["LAL"], [], [], [], [], [], [], []] := by decide

/-- Week 1 of `leagueW` iterates days 0 through 7. -/
theorem leagueW_week_days :
    week_days (Week.ofLeague leagueW 1) 0 = [0, 1, 2, 3, 4, 5, 6, 7] := by decide

/-- On day 0 the single player is eligible. -/
theorem leagueW_elig0 :
    eligible_players [mkPlayer "LAL" 30] (Week.ofLeague leagueW 1) 0 ["ACTIVE"]
      = [mkPlayer "LAL" 30] := by
  simp [eligible_players, players_with_game, effective_injury_status,
    leagueW_tgl, mkPlayer]

/-- On days 1 through 7 nobody plays. -/
theorem leagueW_eligk : ∀ d ∈ ([1, 2, 3, 4, 5, 6, 7] : List ℕ),
    eligible_players [mkPlayer "LAL" 30] (Week.ofLeague leagueW 1) d ["ACTIVE"]
      = [] := by
  intro d hd
  fin_cases hd <;> simp [eligible_players, players_with_game, leagueW_tgl]

/-- Day 0 of `leagueW` contributes `(30, 0)`. -/
theorem leagueW_day0 :
    simulate_day [mkPlayer "LAL" 30] (Week.ofLeague leagueW 1) 0 ["ACTIVE"] 9
      = some (30, 0) := by
  rw [simulate_day, leagueW_elig0]
  simp [player_stat_triples, mkPlayer_stats, List.insertionSort,
    List.orderedInsert]

/-- Days 1 through 7 of `leagueW` contribute `(0, 0)`. -/
theorem leagueW_dayk : ∀ d ∈ ([1, 2, 3, 4, 5, 6, 7] : List ℕ),
    simulate_day [mkPlayer "LAL" 30] (Week.ofLeague leagueW 1) d ["ACTIVE"] 9
      = some (0, 0) := by
  intro d hd
  rw [simulate_day, leagueW_eligk d hd]
  simp [player_stat_triples, List.insertionSort]

/-- The per-day outcomes of `leagueW`'s week are `dailyW`. -/
theorem leagueW_days :
    simulate_days [mkPlayer "LAL" 30] (Week.ofLeague leagueW 1) ["ACTIVE"] 9
      (week_days (Week.ofLeague leagueW 1) 0) = some dailyW := by
  rw [leagueW_week_days]
  have h1 := leagueW_dayk 1 (by norm_num)
  have h2 := leagueW_dayk 2 (by norm_num)
  have h3 := leagueW_dayk 3 (by norm_num)
  have h4 := leagueW_dayk 4 (by norm_num)
  have h5 := leagueW_dayk 5 (by norm_num)
  have h6 := leagueW_dayk 6 (by norm_num)
  have h7 := leagueW_dayk 7 (by norm_num)
  simp [simulate_days, leagueW_day0, h1, h2, h3, h4, h5, h6, h7, dailyW]

/-- The week total of `leagueW`'s team with the cap 9. -/
theorem leagueW_predict :
    predict [mkPlayer "LAL" 30] (Week.ofLeague leagueW 1) 9 0 ["ACTIVE"]
      = some (30, 0) := by
  rw [predict, leagueW_week_days]
  have h1 := leagueW_dayk 1 (by norm_num)
  have h2 := leagueW_dayk 2 (by norm_num)
  have h3 := leagueW_dayk 3 (by norm_num)
  have h4 := leagueW_dayk 4 (by norm_num)
  have h5 := leagueW_dayk 5 (by norm_num)
  have h6 := leagueW_dayk 6 (by norm_num)
  have h7 := leagueW_dayk 7 (by norm_num)
  simp [predict_loop, leagueW_day0, h1, h2, h3, h4, h5, h6, h7]

/-- The game count of `leagueW`'s team. -/
theorem leagueW_games :
    get_total_number_of_games [mkPlayer "LAL" 30] (Week.ofLeague leagueW 1) 9 0
      ["ACTIVE"] = 1 := by
  rw [get_total_number_of_games, leagueW_week_days]
  have h1 := leagueW_eligk 1 (by norm_num)
  have h2 := leagueW_eligk 2 (by norm_num)
  have h3 := leagueW_eligk 3 (by norm_num)
  have h4 := leagueW_eligk 4 (by norm_num)
  have h5 := leagueW_eligk 5 (by norm_num)
  have h6 := leagueW_eligk 6 (by norm_num)
  have h7 := leagueW_eligk 7 (by norm_num)
  simp [leagueW_elig0, h1, h2, h3, h4, h5, h6, h7]

/-- The full `predict_week` result of `leagueW`. -/
theorem leagueW_predict_week :
    predict_week leagueW 1 0 ["ACTIVE"]
      = some ([("Team A", 1)], [("Team A", (30, 0))]) := by
  rw [predict_week]
  show predict_week_loop (Week.ofLeague leagueW 1) 0 ["ACTIVE"]
    [{ team_name := "Team A", roster := [mkPlayer "LAL" 30] }] = _
  rw [predict_week_loop]
  simp [leagueW_predict, leagueW_games, predict_week_loop]

/-- Witness for C6 (amended): through `predict_week` the one-team league
gets the cap-9 forecast `(30, 0)` and game count 1, while `predict`'s own
default remains 10. -/
theorem c6_default_daily_cap_witness :
    predict_week leagueW 1 0 ["ACTIVE"]
      = some ([("Team A", 1)], [("Team A", (30, 0))])
    ∧ predict_default_daily_active_size = 10
    ∧ predict [mkPlayer "LAL" 30] (Week.ofLeague leagueW 1) 9 0 ["ACTIVE"]
      = some (30, 0) := by
  have hc := c6_default_daily_cap leagueW 1 0 ["ACTIVE"]
    ([("Team A", 1)], [("Team A", (30, 0))]) leagueW_predict_week
  have h2 : List.Forall₂ (fun (team : Team) (entry : String × (ℚ × ℚ)) =>
      entry.1 = team.team_name
      ∧ predict team.roster (Week.ofLeague leagueW 1) 9 0 ["ACTIVE"]
        = some entry.2)
      ([{ team_name := "Team A", roster := [mkPlayer "LAL" 30] }] : List Team)
      [("Team A", (30, 0))] := hc.2.2
  cases h2 with
  | cons hhead _ => exact ⟨leagueW_predict_week, hc.1, hhead.2⟩

/-- The duplicated per-day computation of the remaining-days table is the
per-day step of `predict` with the cap 9. -/
theorem remaining_daily_scores_eq (roster : List Player) (week : Week)
    (injuryStatusList : List String) :
    ∀ days : List ℕ,
      remaining_daily_scores roster week injuryStatusList days
        = simulate_days roster week injuryStatusList 9 days
  | [] => rfl
  | day :: rest => by
    rw [remaining_daily_scores, simulate_days,
      remaining_daily_scores_eq roster week injuryStatusList rest,
      simulate_day]

/-- A successful `simulate_days` has one outcome per day. -/
theorem simulate_days_length (roster : List Player) (week : Week)
    (injuryStatusList : List String) (daily_active_size : ℕ) :
    ∀ (days : List ℕ) (rs : List (ℚ × ℚ)),
      simulate_days roster week injuryStatusList daily_active_size days
        = some rs → rs.length = days.length
  | [], rs, h => by
    simp only [simulate_days, Option.some.injEq] at h
    subst h
    rfl
  | day :: rest, rs, h => by
    rw [simulate_days] at h
    cases hd : simulate_day roster week day injuryStatusList daily_active_size with
    | none => rw [hd] at h; cases h
    | some dv =>
      rw [hd] at h
      cases hr : simulate_days roster week injuryStatusList daily_active_size rest with
      | none => rw [hr] at h; cases h
      | some rs2 =>
        rw [hr] at h
        cases h
        simp [simulate_days_length roster week injuryStatusList
          daily_active_size rest rs2 hr]

/-- The iterated day list has `numDays - starting_day` entries. -/
theorem week_days_length (week : Week) (starting_day : ℕ) :
    (week_days week starting_day).length = week.numDays - starting_day := by
  simp [week_days]

/-- A member of the left list of a `Forall₂` has a related member on the
right. -/
theorem forall2_mem_left {α β : Type} {R : α → β → Prop} :
    ∀ {l1 : List α} {l2 : List β}, List.Forall₂ R l1 l2 →
      ∀ a ∈ l1, ∃ b, b ∈ l2 ∧ R a b
  | _, _, List.Forall₂.nil, a, ha => by cases ha
  | _, _, List.Forall₂.cons hab h, a, ha => by
    cases ha with
    | head => exact ⟨_, List.mem_cons_self _ _, hab⟩
    | tail _ hmem =>
      obtain ⟨b, hb, hr⟩ := forall2_mem_left h a hmem
      exact ⟨b, List.mem_cons_of_mem _ hb, hr⟩

/-- A successful `daily_predictions_loop` pairs each team, in order, with
its per-day score list. -/
theorem daily_predictions_loop_spec (week : Week) (day_of_week_override : ℕ)
    (injuryStatusList : List String) :
    ∀ (teams : List Team) (result : List (String × List (ℚ × ℚ))),
      daily_predictions_loop week day_of_week_override injuryStatusList teams
        = some result →
      List.Forall₂ (fun team entry => entry.1 = team.team_name
          ∧ remaining_daily_scores team.roster week injuryStatusList
              (week_days week day_of_week_override) = some entry.2)
        teams result
  | [], result, h => by
    simp only [daily_predictions_loop, Option.some.injEq] at h
    subst h
    exact List.Forall₂.nil
  | team :: rest, result, h => by
    rw [daily_predictions_loop] at h
    cases hd : remaining_daily_scores team.roster week injuryStatusList
        (week_days week day_of_week_override) with
    | none => rw [hd] at h; cases h
    | some daily =>
      rw [hd] at h
      cases hr : daily_predictions_loop week day_of_week_override
          injuryStatusList rest with
      | none => rw [hr] at h; cases h
      | some others =>
        rw [hr] at h
        cases h
        exact List.Forall₂.cons ⟨rfl, hd⟩
          (daily_predictions_loop_spec week day_of_week_override
            injuryStatusList rest others hr)

/-- The suffix table has one entry per day. -/
theorem suffix_cumulative_length (daily : List (ℚ × ℚ)) :
    (suffix_cumulative daily).length = daily.length := by
  simp [suffix_cumulative]

/-- Entry `i` of the suffix table sums days `i` through the last. -/
theorem suffix_cumulative_get (daily : List (ℚ × ℚ)) (i : ℕ)
    (hi : i < (suffix_cumulative daily).length) :
    (suffix_cumulative daily).get ⟨i, hi⟩
      = (((daily.drop i).map Prod.fst).sum, ((daily.drop i).map Prod.snd).sum) := by
  simp [suffix_cumulative]

/-- The per-day score list of `leagueW`'s team in the remaining-days
pipeline. -/
theorem leagueW_remaining_daily :
    remaining_daily_scores [mkPlayer "LAL" 30] (Week.ofLeague leagueW 1)
      ["ACTIVE"] (week_days (Week.ofLeague leagueW 1) 0) = some dailyW := by
  rw [remaining_daily_scores_eq]
  exact leagueW_days

/-- The full remaining-days table of `leagueW`. -/
theorem leagueW_remaining :
    get_remaining_days_cumulative_scores leagueW 1 0 ["ACTIVE"]
      = some [("Team A", suffix_cumulative dailyW)] := by
  have hloop : daily_predictions_loop (Week.ofLeague leagueW 1) 0 ["ACTIVE"]
      leagueW.teams = some [("Team A", dailyW)] := by
    show daily_predictions_loop (Week.ofLeague leagueW 1) 0 ["ACTIVE"]
      [{ team_name := "Team A", roster := [mkPlayer "LAL" 30] }] = _
    simp only [daily_predictions_loop, leagueW_remaining_daily]
  rw [get_remaining_days_cumulative_scores, hloop]
  rfl

/-- C9: when the remaining-days forecast succeeds, each team's table holds
one entry per start day from the override through the window's last day,
in window order; entry `i` carries the suffix mean sum over days `i..last`
together with the suffix variance sum to which the source applies
`math.sqrt` once per entry. -/
theorem c9_remaining_days_table (league : League) (week_index : ℤ)
    (day_of_week_override : ℕ) (injuryStatusList : List String)
    (result : List (String × List (ℚ × ℚ))) (team : Team)
    (daily : List (ℚ × ℚ))
    (h : get_remaining_days_cumulative_scores league week_index
      day_of_week_override injuryStatusList = some result)
    (hteam : team ∈ league.teams)
    (hdaily : remaining_daily_scores team.roster
      (Week.ofLeague league week_index) injuryStatusList
      (week_days (Week.ofLeague league week_index) day_of_week_override)
      = some daily) :
    (team.team_name, suffix_cumulative daily) ∈ result
    ∧ (suffix_cumulative daily).length
      = (Week.ofLeague league week_index).numDays - day_of_week_override
    ∧ ∀ i (hi : i < (suffix_cumulative daily).length),
        (suffix_cumulative daily).get ⟨i, hi⟩
          = (((daily.drop i).map Prod.fst).sum,
             ((daily.drop i).map Prod.snd).sum)
        ∧ Real.sqrt ((((suffix_cumulative daily).get ⟨i, hi⟩).2 : ℚ) : ℝ)
          = Real.sqrt (((((daily.drop i).map Prod.snd).sum : ℚ) : ℝ)) := by
  have hlen : daily.length
      = (Week.ofLeague league week_index).numDays - day_of_week_override := by
    have hsim : simulate_days team.roster (Week.ofLeague league week_index)
        injuryStatusList 9
        (week_days (Week.ofLeague league week_index) day_of_week_override)
        = some daily := by
      rw [← remaining_daily_scores_eq]
      exact hdaily
    rw [simulate_days_length team.roster (Week.ofLeague league week_index)
      injuryStatusList 9 _ daily hsim, week_days_length]
  refine ⟨?_, by rw [suffix_cumulative_length, hlen], fun i hi => ?_⟩
  · rw [get_remaining_days_cumulative_scores] at h
    cases hdp : daily_predictions_loop (Week.ofLeague league week_index)
        day_of_week_override injuryStatusList league.teams with
    | none => rw [hdp] at h; cases h
    | some pre =>
      rw [hdp] at h
      simp only [Option.map_some', Option.some.injEq] at h
      subst h
      have hspec := daily_predictions_loop_spec (Week.ofLeague league week_index)
        day_of_week_override injuryStatusList league.teams pre hdp
      obtain ⟨entry, hmem, hname, hdd⟩ := forall2_mem_left hspec team hteam
      have hdq : entry.2 = daily := by
        have h2 := hdd.symm.trans hdaily
        simpa using h2
      have hin : (entry.1, suffix_cumulative entry.2)
          ∈ pre.map (fun nt => (nt.1, suffix_cumulative nt.2)) :=
        List.mem_map_of_mem _ hmem
      rw [hname, hdq] at hin
      exact hin
  · refine ⟨suffix_cumulative_get daily i hi, ?_⟩
    rw [suffix_cumulative_get daily i hi]

/-- Witness for C9: the one-team league's table exists, carries the team's
suffix table, and has one entry per day of the 8-day week. -/
theorem c9_remaining_days_table_witness :
    get_remaining_days_cumulative_scores leagueW 1 0 ["ACTIVE"]
      = some [("Team A", suffix_cumulative dailyW)]
    ∧ (suffix_cumulative dailyW).length = 8 := by
  have hteam : ({ team_name := "Team A", roster := [mkPlayer "LAL" 30] } : Team)
      ∈ leagueW.teams := by simp [leagueW]
  have hc := c9_remaining_days_table leagueW 1 0 ["ACTIVE"]
    [("Team A", suffix_cumulative dailyW)]
    { team_name := "Team A", roster := [mkPlayer "LAL" 30] } dailyW
    leagueW_remaining hteam leagueW_remaining_daily
  refine ⟨leagueW_remaining, ?_⟩
  rw [hc.2.1]
  decide

/-- C10: whenever the remaining-days table succeeds and is nonempty for a
team, its first entry carries exactly the sums that `predict` with
`daily_active_size=9` and the same start day returns (the source applies
the same final `math.sqrt` to both second components). -/
theorem c10_first_entry_refines_predict (league : League) (week_index : ℤ)
    (day_of_week_override : ℕ) (injuryStatusList : List String)
    (result : List (String × List (ℚ × ℚ))) (team : Team)
    (daily : List (ℚ × ℚ))
    (h : get_remaining_days_cumulative_scores league week_index
      day_of_week_override injuryStatusList = some result)
    (hteam : team ∈ league.teams)
    (hdaily : remaining_daily_scores team.roster
      (Week.ofLeague league week_index) injuryStatusList
      (week_days (Week.ofLeague league week_index) day_of_week_override)
      = some daily)
    (hne : daily ≠ []) :
    predict team.roster (Week.ofLeague league week_index) 9
      day_of_week_override injuryStatusList
      = some ((daily.map Prod.fst).sum, (daily.map Prod.snd).sum)
    ∧ (team.team_name, suffix_cumulative daily) ∈ result
    ∧ (suffix_cumulative daily).head?
      = some ((daily.map Prod.fst).sum, (daily.map Prod.snd).sum) := by
  have hsim : simulate_days team.roster (Week.ofLeague league week_index)
      injuryStatusList 9
      (week_days (Week.ofLeague league week_index) day_of_week_override)
      = some daily := by
    rw [← remaining_daily_scores_eq]
    exact hdaily
  refine ⟨?_, ?_, ?_⟩
  · rw [predict, predict_loop_eq, hsim]
    simp
  · rw [get_remaining_days_cumulative_scores] at h
    cases hdp : daily_predictions_loop (Week.ofLeague league week_index)
        day_of_week_override injuryStatusList league.teams with
    | none => rw [hdp] at h; cases h
    | some pre =>
      rw [hdp] at h
      simp only [Option.map_some', Option.some.injEq] at h
      subst h
      have hspec := daily_predictions_loop_spec (Week.ofLeague league week_index)
        day_of_week_override injuryStatusList league.teams pre hdp
      obtain ⟨entry, hmem, hname, hdd⟩ := forall2_mem_left hspec team hteam
      have hdq : entry.2 = daily := by
        have h2 := hdd.symm.trans hdaily
        simpa using h2
      have hin : (entry.1, suffix_cumulative entry.2)
          ∈ pre.map (fun nt => (nt.1, suffix_cumulative nt.2)) :=
        List.mem_map_of_mem _ hmem
      rw [hname, hdq] at hin
      exact hin
  · rcases daily with _ | ⟨d0, ds⟩
    · exact absurd rfl hne
    · simp [suffix_cumulative, List.range_succ_eq_map]

/-- Witness for C10: the first entry of `leagueW`'s table and the cap-9
week prediction agree at `(30, 0)`. -/
theorem c10_first_entry_refines_predict_witness :
    predict [mkPlayer "LAL" 30] (Week.ofLeague leagueW 1) 9 0 ["ACTIVE"]
      = some (30, 0)
    ∧ (suffix_cumulative dailyW).head? = some (30, 0) := by
  have hteam : ({ team_name := "Team A", roster := [mkPlayer "LAL" 30] } : Team)
      ∈ leagueW.teams := by simp [leagueW]
  have hc := c10_first_entry_refines_predict leagueW 1 0 ["ACTIVE"]
    [("Team A", suffix_cumulative dailyW)]
    { team_name := "Team A", roster := [mkPlayer "LAL" 30] } dailyW
    leagueW_remaining hteam leagueW_remaining_daily (by simp [dailyW])
  have hsum : (((dailyW.map Prod.fst).sum : ℚ), ((dailyW.map Prod.snd).sum : ℚ))
      = ((30 : ℚ), (0 : ℚ)) := by norm_num [dailyW]
  constructor
  · have h1 := hc.1
    rw [hsum] at h1
    exact h1
  · have h3 := hc.2.2
    rw [hsum] at h3
    exact h3
